import Mathlib

/-!
Shallow embedding of `dewabe/connector` (files `connector/db.py` and
`connector/core.py`).

The repository's core is:
* `create_connection_string` (db.py, lines 47-88): branches on the database
  kind string and instantiates a URI template through Python's `str.format`;
* `create_db_engine` (db.py, lines 8-44): rejects empty connection strings,
  then asks the client library for an engine and validates it with one trial
  connect/close, wrapping client failures;
* `Connector.execute_query` (core.py, lines 39-61): delegates to
  `pd.read_sql_query` and wraps `SQLAlchemyError`s;
* `AutoConnector.__init__` (core.py, lines 83-102): decides whether to read a
  driver value with a case-insensitive comparison of the kind to `mssql`.

Python strings are `String`, optional values are `Option` (Python's
`if not x` on a string-or-None is `none` or `some ""`), exceptions are the
`Except` error channel.  Python exception classes are told apart by an
inductive error type whose constructors carry the exception's message where
the message matters to a claim.
-/

/-- Errors that `create_connection_string` can produce.  `missingDriver` and
`unsupportedDbType` are the two explicit `ValueError`s of db.py lines 82 and
86.  The remaining constructors are the errors Python's `str.format` raises
while instantiating the URI template: `ValueError` on a lone `\x7b`, a
`ValueError` on a field that never closes, a `ValueError` on a lone `\x7d`,
and `KeyError` on a field name that is not among the keyword arguments of
db.py line 88. -/
inductive BuildError where
  | missingDriver
  | unsupportedDbType (dbType : String)
  | singleLbrace
  | unterminatedField
  | singleRbrace
  | keyError (key : String)
  deriving DecidableEq, Repr

/-- One scanning step of Python's `str.format`, restricted to the template
syntax the repository uses: literal characters, `\x7b\x7b` / `\x7d\x7d`
escapes, and plain named replacement fields `{name}` (no conversion, format
spec, indexing or attribute syntax appears in db.py's templates).  The first
argument is `none` while scanning literal text and `some acc` while inside a
replacement field, `acc` holding the field-name characters read so far in
reverse.  Substituted values are spliced in verbatim and never rescanned,
exactly as in CPython. -/
def pyFormatGo (vars : String → Option String) :
    Option (List Char) → List Char → Except BuildError (List Char)
  | none, [] => .ok []
  | none, c :: rest =>
    if c = '{' then
      match rest with
      | [] => .error .singleLbrace
      | c2 :: rest2 =>
        if c2 = '{' then (pyFormatGo vars none rest2).map (fun t => '{' :: t)
        else pyFormatGo vars (some []) (c2 :: rest2)
    else if c = '}' then
      match rest with
      | [] => .error .singleRbrace
      | c2 :: rest2 =>
        if c2 = '}' then (pyFormatGo vars none rest2).map (fun t => '}' :: t)
        else .error .singleRbrace
    else (pyFormatGo vars none rest).map (fun t => c :: t)
  | some _, [] => .error .unterminatedField
  | some acc, c :: rest =>
    if c = '}' then
      match vars (String.mk acc.reverse) with
      | none => .error (.keyError (String.mk acc.reverse))
      | some v => (pyFormatGo vars none rest).map (fun t => v.data ++ t)
    else pyFormatGo vars (some (c :: acc)) rest

/-- Python's `template.format(username=..., password=..., server=...,
database=...)` as called on db.py line 88. -/
def pyFormat (vars : String → Option String) (template : String) :
    Except BuildError String :=
  (pyFormatGo vars none template.data).map String.mk

/-- The keyword arguments passed to `.format` on db.py line 88. -/
def fmtVars (username password server database : String) : String → Option String :=
  fun k =>
    if k = "username" then some username
    else if k = "password" then some password
    else if k = "server" then some server
    else if k = "database" then some database
    else none

/-- Python's `driver.replace(' ', '+')` (db.py line 83): the pattern is a
single character, so it is a character map. -/
def replaceSpacePlus (s : String) : String :=
  String.mk (s.data.map (fun c => if c = ' ' then '+' else c))

/-- `create_connection_string` of db.py lines 47-88.  The `driver` parameter
defaults to `None` in Python; `if not driver` is true exactly on `none` and
`some ""`.  For mssql the space-replaced driver is concatenated into the
template *before* `.format` runs (line 84), so the driver text participates
in the format pass. -/
def create_connection_string (db_type db_server db_database db_username
    db_password : String) (driver : Option String := none) :
    Except BuildError String :=
  if db_type = "postgresql" then
    pyFormat (fmtVars db_username db_password db_server db_database)
      "postgresql://{username}:{password}@{server}/{database}"
  else if db_type = "mssql" then
    match driver with
    | none => .error .missingDriver
    | some d =>
      if d = "" then .error .missingDriver
      else
        pyFormat (fmtVars db_username db_password db_server db_database)
          ("mssql+pyodbc://{username}:{password}@{server}/{database}"
            ++ ("?driver=" ++ replaceSpacePlus d))
  else .error (.unsupportedDbType db_type)

/-- A driver value whose text never collides with the template syntax of
`str.format`: it contains no brace character. -/
def braceFree (s : String) : Prop := ∀ c ∈ s.data, c ≠ '{' ∧ c ≠ '}'

instance (s : String) : Decidable (braceFree s) := by
  unfold braceFree; infer_instance

/-- Calls `create_db_engine` makes on the underlying SQLAlchemy library:
`create_engine(connection_string)` (db.py line 37), then the trial
`engine.connect()` and `.close()` (db.py line 38). -/
inductive ClientEvent where
  | createEngine (connection_string : String)
  | connect
  | close
  deriving DecidableEq, Repr

/-- The slice of the SQLAlchemy client interface that `create_db_engine`
consumes, as a substitutable stub.  Each operation either succeeds or fails
with a `SQLAlchemyError` carrying a message — the only exception class
db.py's `except SQLAlchemyError` clause handles, and the class SQLAlchemy
documents for connection failures. -/
structure StubClient (Engine Conn : Type) where
  create_engine : String → Except String Engine
  connect : Engine → Except String Conn
  close : Conn → Except String Unit

/-- Errors `create_db_engine` raises: the `ValueError` of db.py line 34
(the spec's `EmptyConnectionString`) and the wrapping `SQLAlchemyError` of
db.py line 44 (the spec's `ConnectionError`), whose message embeds the
original cause after the fixed prefix. -/
inductive EngineError where
  | valueError (msg : String)
  | sqlAlchemyError (msg : String)
  deriving DecidableEq, Repr

/-- `create_db_engine` of db.py lines 8-44, instrumented with the list of
client calls it performs, in order.  `connection_string` is `Option String`
so that Python's `None` argument is representable; `if not connection_string`
is true exactly on `none` and `some ""`.  On any client failure the function
re-raises `SQLAlchemyError("Failed to create database engine: " + str(e))`
and returns no engine. -/
def create_db_engine {Engine Conn : Type} (client : StubClient Engine Conn)
    (connection_string : Option String) :
    Except EngineError Engine × List ClientEvent :=
  match connection_string with
  | none => (.error (.valueError "The connection string cannot be empty."), [])
  | some s =>
    if s = "" then
      (.error (.valueError "The connection string cannot be empty."), [])
    else
      match client.create_engine s with
      | .error e =>
        (.error (.sqlAlchemyError ("Failed to create database engine: " ++ e)),
          [.createEngine s])
      | .ok engine =>
        match client.connect engine with
        | .error e =>
          (.error (.sqlAlchemyError ("Failed to create database engine: " ++ e)),
            [.createEngine s, .connect])
        | .ok conn =>
          match client.close conn with
          | .error e =>
            (.error (.sqlAlchemyError ("Failed to create database engine: " ++ e)),
              [.createEngine s, .connect, .close])
          | .ok _ => (.ok engine, [.createEngine s, .connect, .close])

/-- The error `Connector.execute_query` raises (core.py line 61): a
`SQLAlchemyError` whose message embeds the original cause after the fixed
prefix. -/
inductive QueryError where
  | sqlAlchemyError (msg : String)
  deriving DecidableEq, Repr

/-- `Connector.execute_query` of core.py lines 39-61, instrumented with the
list of `(sql, params)` calls made to `pd.read_sql_query` (the engine
argument of that call is the connector's own engine and carries no
information for the claims, so it is not recorded).  A `SQLAlchemyError`
raised by the client is re-raised as
`SQLAlchemyError("An error occurred while executing the query: " + str(e))`. -/
def execute_query {Params Table : Type}
    (read_sql_query : String → Option Params → Except String Table)
    (query : String) (params : Option Params) :
    Except QueryError Table × List (String × Option Params) :=
  match read_sql_query query params with
  | .ok t => (.ok t, [(query, params)])
  | .error e =>
    (.error (.sqlAlchemyError ("An error occurred while executing the query: " ++ e)),
      [(query, params)])

/-- Python's `str.lower()` restricted to ASCII text, which is all the kind
strings of this repository use: each character is lowercased
independently. -/
def pyLower (s : String) : String :=
  String.mk (s.data.map Char.toLower)

/-- The driver-reading decision of `AutoConnector.__init__` (core.py line
99): `load_env_var('CONNECTOR_DB_DRIVER') if db_type.lower() == 'mssql' else
None` — a case-insensitive comparison of the kind with `mssql`. -/
def autoConnectorReadsDriver (db_type : String) : Bool :=
  pyLower db_type == "mssql"

/-- A stub client whose every operation succeeds. -/
def okStubClient : StubClient Unit Unit where
  create_engine := fun _ => .ok ()
  connect := fun _ => .ok ()
  close := fun _ => .ok ()

/-- A stub client that raises a `SQLAlchemyError` when the trial connection
is closed (the spec's §8 scenario for `open`). -/
def closeFailStubClient : StubClient Unit Unit where
  create_engine := fun _ => .ok ()
  connect := fun _ => .ok ()
  close := fun _ => .error "trial close failed"

instance {ε α : Type} [DecidableEq ε] [DecidableEq α] :
    DecidableEq (Except ε α) := fun a b =>
  match a, b with
  | .ok x, .ok y => decidable_of_iff (x = y) (by simp)
  | .error e, .error f => decidable_of_iff (e = f) (by simp)
  | .ok _, .error _ => isFalse (by simp)
  | .error _, .ok _ => isFalse (by simp)

theorem pyFormatGo_nil (vars : String → Option String) :
    pyFormatGo vars none [] = .ok [] := rfl

theorem pyFormatGo_cons (vars : String → Option String) {c : Char}
    (h1 : c ≠ '{') (h2 : c ≠ '}') (l : List Char) :
    pyFormatGo vars none (c :: l)
      = (pyFormatGo vars none l).map (fun t => c :: t) := by
  cases l with
  | nil => simp [pyFormatGo, h1, h2]
  | cons c2 rest => simp [pyFormatGo, h1, h2]

theorem pyFormatGo_lit_append (vars : String → Option String) {cs : List Char}
    (h : ∀ c ∈ cs, c ≠ '{' ∧ c ≠ '}') (l : List Char) :
    pyFormatGo vars none (cs ++ l)
      = (pyFormatGo vars none l).map (fun t => cs ++ t) := by
  induction cs with
  | nil => cases hx : pyFormatGo vars none l <;> simp [Except.map, hx]
  | cons c cs ih =>
    have hc := h c (List.mem_cons_self c cs)
    rw [List.cons_append, pyFormatGo_cons vars hc.1 hc.2,
      ih (fun c hc2 => h c (List.mem_cons_of_mem _ hc2))]
    cases hx : pyFormatGo vars none l <;> simp [Except.map, hx]

theorem pyFormatGo_acc_close (vars : String → Option String) :
    ∀ (name acc l : List Char) (v : String), '}' ∉ name →
      vars (String.mk (acc.reverse ++ name)) = some v →
      pyFormatGo vars (some acc) (name ++ '}' :: l)
        = (pyFormatGo vars none l).map (fun t => v.data ++ t) := by
  intro name
  induction name with
  | nil =>
    intro acc l v _ hv
    rw [List.append_nil] at hv
    simp [pyFormatGo, hv]
  | cons c name ih =>
    intro acc l v h hv
    have hc : c ≠ '}' := fun e => h (e ▸ List.mem_cons_self c name)
    have h' : '}' ∉ name := fun e => h (List.mem_cons_of_mem _ e)
    have hv' : vars (String.mk ((c :: acc).reverse ++ name)) = some v := by
      simpa [List.append_assoc] using hv
    have step : pyFormatGo vars (some acc) ((c :: name) ++ '}' :: l)
        = pyFormatGo vars (some (c :: acc)) (name ++ '}' :: l) := by
      simp [pyFormatGo, hc]
    rw [step, ih (c :: acc) l v h' hv']

theorem pyFormatGo_field (vars : String → Option String) {name : List Char}
    (hne : name ≠ []) (hn : ∀ c ∈ name, c ≠ '{' ∧ c ≠ '}') (l : List Char)
    {v : String} (hv : vars (String.mk name) = some v) :
    pyFormatGo vars none ('{' :: name ++ '}' :: l)
      = (pyFormatGo vars none l).map (fun t => v.data ++ t) := by
  cases name with
  | nil => exact absurd rfl hne
  | cons c name =>
    have hc := hn c (List.mem_cons_self c name)
    have step : pyFormatGo vars none ('{' :: (c :: name) ++ '}' :: l)
        = pyFormatGo vars (some []) ((c :: name) ++ '}' :: l) := by
      simp [pyFormatGo, hc.1]
    rw [step]
    exact pyFormatGo_acc_close vars (c :: name) [] l v
      (fun e => (hn '}' e).2 rfl) (by simpa using hv)

theorem fmtVars_username (u p s d : String) :
    fmtVars u p s d "username" = some u := rfl

theorem fmtVars_password (u p s d : String) :
    fmtVars u p s d "password" = some p := rfl

theorem fmtVars_server (u p s d : String) :
    fmtVars u p s d "server" = some s := rfl

theorem fmtVars_database (u p s d : String) :
    fmtVars u p s d "database" = some d := rfl

theorem pyFormatGo_core (u p s d : String) (tail : List Char) :
    pyFormatGo (fmtVars u p s d) none
        ("{username}:{password}@{server}/{database}".data ++ tail)
      = (pyFormatGo (fmtVars u p s d) none tail).map
          (fun t => u.data ++ (':' :: (p.data ++ ('@' ::
            (s.data ++ ('/' :: (d.data ++ t))))))) := by
  have h0 : "{username}:{password}@{server}/{database}".data ++ tail
      = '{' :: "username".data ++ '}' :: (':' :: ('{' :: "password".data ++ '}' ::
          ('@' :: ('{' :: "server".data ++ '}' ::
            ('/' :: ('{' :: "database".data ++ '}' :: tail)))))) := rfl
  rw [h0]
  rw [pyFormatGo_field _ (by decide) (by decide) _ (fmtVars_username u p s d)]
  rw [pyFormatGo_cons _ (by decide) (by decide)]
  rw [pyFormatGo_field _ (by decide) (by decide) _ (fmtVars_password u p s d)]
  rw [pyFormatGo_cons _ (by decide) (by decide)]
  rw [pyFormatGo_field _ (by decide) (by decide) _ (fmtVars_server u p s d)]
  rw [pyFormatGo_cons _ (by decide) (by decide)]
  rw [pyFormatGo_field _ (by decide) (by decide) _ (fmtVars_database u p s d)]
  cases hx : pyFormatGo (fmtVars u p s d) none tail <;>
    simp [Except.map, hx, List.append_assoc]

theorem pyFormatGo_all_lit (vars : String → Option String) {cs : List Char}
    (h : ∀ c ∈ cs, c ≠ '{' ∧ c ≠ '}') :
    pyFormatGo vars none cs = .ok cs := by
  have h2 := pyFormatGo_lit_append vars h []
  rw [List.append_nil] at h2
  rw [h2, pyFormatGo_nil]
  simp [Except.map]

theorem braceFree_replaceSpacePlus {d : String} (h : braceFree d) :
    braceFree (replaceSpacePlus d) := by
  intro c hc
  unfold replaceSpacePlus at hc
  simp only [List.mem_map] at hc
  obtain ⟨a, ha, rfl⟩ := hc
  have h2 := h a ha
  by_cases haa : a = ' '
  · simp [haa]
  · simpa [haa] using h2

/-- Evaluation of `create_connection_string` on the postgres branch: db.py
line 79's template instantiated at arbitrary field values. -/
theorem postgres_build_eval (host database username password : String)
    (driver : Option String) :
    create_connection_string "postgresql" host database username password driver
      = .ok ("postgresql://" ++ username ++ ":" ++ password ++ "@" ++ host
          ++ "/" ++ database) := by
  unfold create_connection_string pyFormat
  rw [if_pos rfl]
  have h0 : "postgresql://{username}:{password}@{server}/{database}".data
      = "postgresql://".data
          ++ ("{username}:{password}@{server}/{database}".data ++ []) := rfl
  rw [h0, pyFormatGo_lit_append _ (by decide) _, pyFormatGo_core, pyFormatGo_nil]
  simp only [Except.map]
  congr 1
  apply String.ext
  simp [String.data_append, List.append_assoc]

/-- Evaluation of `create_connection_string` on the mssql branch when the
space-replaced driver contains no brace character: db.py line 84's template
instantiated at arbitrary field values. -/
theorem mssql_build_eval (host database username password : String) {d : String}
    (hne : d ≠ "") (hb : braceFree (replaceSpacePlus d)) :
    create_connection_string "mssql" host database username password (some d)
      = .ok ("mssql+pyodbc://" ++ username ++ ":" ++ password ++ "@" ++ host
          ++ "/" ++ database ++ "?driver=" ++ replaceSpacePlus d) := by
  unfold create_connection_string pyFormat
  rw [if_neg (by decide), if_pos rfl]
  show (if d = "" then Except.error BuildError.missingDriver else _) = _
  rw [if_neg hne]
  have h0 : ("mssql+pyodbc://{username}:{password}@{server}/{database}"
        ++ ("?driver=" ++ replaceSpacePlus d)).data
      = "mssql+pyodbc://".data
          ++ ("{username}:{password}@{server}/{database}".data
            ++ ("?driver=".data ++ (replaceSpacePlus d).data)) := rfl
  rw [h0, pyFormatGo_lit_append _ (by decide) _, pyFormatGo_core,
    pyFormatGo_lit_append _ (by decide) _, pyFormatGo_all_lit _ hb]
  simp only [Except.map]
  congr 1
  apply String.ext
  simp [String.data_append, List.append_assoc]

/-- Evaluation of `create_connection_string` on the mssql branch when the
driver text is itself the replacement field `{password}`: because db.py line
84 splices the driver into the template before `.format` runs, the password
value lands in the driver query segment. -/
theorem mssql_driver_injection_eval (host database username p : String) :
    create_connection_string "mssql" host database username p (some "{password}")
      = .ok ("mssql+pyodbc://" ++ username ++ ":" ++ p ++ "@" ++ host
          ++ "/" ++ database ++ "?driver=" ++ p) := by
  unfold create_connection_string pyFormat
  rw [if_neg (by decide), if_pos rfl]
  show (if ("{password}" : String) = ""
      then Except.error BuildError.missingDriver else _) = _
  rw [if_neg (by decide)]
  have h0 : ("mssql+pyodbc://{username}:{password}@{server}/{database}"
        ++ ("?driver=" ++ replaceSpacePlus "{password}")).data
      = "mssql+pyodbc://".data
          ++ ("{username}:{password}@{server}/{database}".data
            ++ ("?driver=".data ++ ('{' :: "password".data ++ '}' :: []))) := rfl
  rw [h0, pyFormatGo_lit_append _ (by decide) _, pyFormatGo_core,
    pyFormatGo_lit_append _ (by decide) _,
    pyFormatGo_field _ (by decide) (by decide) _
      (fmtVars_password username p host database),
    pyFormatGo_nil]
  simp only [Except.map]
  congr 1
  apply String.ext
  simp [String.data_append, List.append_assoc]

/-- C1: for every valid postgres credential set, `create_connection_string`
returns exactly `postgresql://` followed by username, `:`, password, `@`,
host, `/`, database, by literal substitution with no escaping; it is a pure
function, so repeated calls on the same input return the same string; and on
the scenario credentials it returns `postgresql://u:p@db1/sales`. -/
theorem c1_postgres_build_exact (host database username password : String)
    (driver : Option String) :
    create_connection_string "postgresql" host database username password driver
      = .ok ("postgresql://" ++ username ++ ":" ++ password ++ "@" ++ host
          ++ "/" ++ database)
    ∧ create_connection_string "postgresql" host database username password driver
      = create_connection_string "postgresql" host database username password driver
    ∧ create_connection_string "postgresql" "db1" "sales" "u" "p" none
      = .ok "postgresql://u:p@db1/sales" :=
  ⟨postgres_build_eval host database username password driver, rfl, by decide⟩

/-- C1 witness: the theorem instantiated at the scenario credentials. -/
theorem c1_postgres_build_exact_witness :
    create_connection_string "postgresql" "db1" "sales" "u" "p" none
      = .ok "postgresql://u:p@db1/sales" :=
  (c1_postgres_build_exact "db1" "sales" "u" "p" none).2.2

/-- C2 counterexample: for the mssql credential set with driver
`{password}` (non-empty, so the claim applies), the claimed output would be
`mssql+pyodbc://u:p@db2/hr?driver={password}` (the space-replaced driver
spliced verbatim), but `create_connection_string` substitutes the password
into the driver segment and returns `mssql+pyodbc://u:p@db2/hr?driver=p`. -/
theorem c2_mssql_build_counterexample :
    replaceSpacePlus "{password}" = "{password}"
    ∧ create_connection_string "mssql" "db2" "hr" "u" "p" (some "{password}")
      = .ok "mssql+pyodbc://u:p@db2/hr?driver=p"
    ∧ ("mssql+pyodbc://u:p@db2/hr?driver=p" : String)
      ≠ "mssql+pyodbc://u:p@db2/hr?driver={password}" :=
  ⟨by decide, by decide, by decide⟩

/-- C2 (amended): for every valid mssql credential set with a non-empty
driver that contains no brace character, `create_connection_string` replaces
every space in the driver with `+` (`replaceSpacePlus`) and returns exactly
`mssql+pyodbc://{username}:{password}@{host}/{database}?driver=` followed by
the space-replaced driver. -/
theorem c2_mssql_build_exact (host database username password : String)
    {d : String} (hne : d ≠ "") (hb : braceFree d) :
    create_connection_string "mssql" host database username password (some d)
      = .ok ("mssql+pyodbc://" ++ username ++ ":" ++ password ++ "@" ++ host
          ++ "/" ++ database ++ "?driver=" ++ replaceSpacePlus d) :=
  mssql_build_eval host database username password hne
    (braceFree_replaceSpacePlus hb)

/-- C2 witness: the amended theorem instantiated at the scenario
credentials, whose driver `ODBC Driver 17 for SQL Server` is brace-free. -/
theorem c2_mssql_build_exact_witness :
    ("ODBC Driver 17 for SQL Server" : String) ≠ ""
    ∧ braceFree "ODBC Driver 17 for SQL Server"
    ∧ create_connection_string "mssql" "db2" "hr" "u" "p"
        (some "ODBC Driver 17 for SQL Server")
      = .ok "mssql+pyodbc://u:p@db2/hr?driver=ODBC+Driver+17+for+SQL+Server" :=
  ⟨by decide, by decide,
    (c2_mssql_build_exact "db2" "hr" "u" "p" (by decide) (by decide)).trans
      (by decide)⟩

/-- C5: for every credential set whose kind string is neither `postgresql`
nor `mssql`, `create_connection_string` fails with the unsupported-kind
error and produces no URI, whatever the other fields are. -/
theorem c5_unsupported_kind (db_type host database username password : String)
    (driver : Option String) (h1 : db_type ≠ "postgresql")
    (h2 : db_type ≠ "mssql") :
    create_connection_string db_type host database username password driver
      = .error (.unsupportedDbType db_type) := by
  unfold create_connection_string
  rw [if_neg h1, if_neg h2]

/-- C5 witness: the theorem instantiated at kind `sqlite`. -/
theorem c5_unsupported_kind_witness :
    ("sqlite" : String) ≠ "postgresql" ∧ ("sqlite" : String) ≠ "mssql"
    ∧ create_connection_string "sqlite" "h" "d" "u" "p" none
      = .error (.unsupportedDbType "sqlite") :=
  ⟨by decide, by decide,
    c5_unsupported_kind "sqlite" "h" "d" "u" "p" none (by decide) (by decide)⟩

/-- C6: for kind mssql with the driver absent (`none`) or empty
(`some ""`), `create_connection_string` fails with the missing-driver error,
for every combination of the remaining fields. -/
theorem c6_missing_driver (host database username password : String)
    (driver : Option String) (h : driver = none ∨ driver = some "") :
    create_connection_string "mssql" host database username password driver
      = .error .missingDriver := by
  rcases h with rfl | rfl
  · unfold create_connection_string
    rw [if_neg (by decide), if_pos rfl]
  · unfold create_connection_string
    rw [if_neg (by decide), if_pos rfl]
    rfl

/-- C3: for every non-empty uri and every client behavior,
`create_db_engine` attempts at most one trial connect and one trial close
(the trace is a prefix of create-engine, connect, close); a handle is
returned only after the full trial succeeded; whichever trial step fails —
engine creation, the trial connect, or the trial close — with original
cause `e`, the result is exactly the wrapping `SQLAlchemyError` (the spec's
`ConnectionError`) whose message carries that same `e`, and no handle; and
conversely every failure surfacing from `create_db_engine` is the wrap of
the cause of the client operation that actually failed. -/
theorem c3_engine_trial_validation {Engine Conn : Type}
    (client : StubClient Engine Conn) (s : String) (h : s ≠ "") :
    ((create_db_engine client (some s)).2 = [ClientEvent.createEngine s]
      ∨ (create_db_engine client (some s)).2
          = [ClientEvent.createEngine s, .connect]
      ∨ (create_db_engine client (some s)).2
          = [ClientEvent.createEngine s, .connect, .close])
    ∧ (∀ engine, (create_db_engine client (some s)).1 = .ok engine →
        (create_db_engine client (some s)).2
          = [ClientEvent.createEngine s, .connect, .close])
    ∧ (∀ e, client.create_engine s = .error e →
        (create_db_engine client (some s)).1
          = .error (.sqlAlchemyError
              ("Failed to create database engine: " ++ e)))
    ∧ (∀ engine e, client.create_engine s = .ok engine →
        client.connect engine = .error e →
        (create_db_engine client (some s)).1
          = .error (.sqlAlchemyError
              ("Failed to create database engine: " ++ e)))
    ∧ (∀ engine conn e, client.create_engine s = .ok engine →
        client.connect engine = .ok conn →
        client.close conn = .error e →
        (create_db_engine client (some s)).1
          = .error (.sqlAlchemyError
              ("Failed to create database engine: " ++ e)))
    ∧ (∀ err, (create_db_engine client (some s)).1 = .error err →
        ∃ e, err = .sqlAlchemyError
              ("Failed to create database engine: " ++ e)
          ∧ (client.create_engine s = .error e
            ∨ (∃ engine, client.create_engine s = .ok engine
                ∧ client.connect engine = .error e)
            ∨ (∃ engine conn, client.create_engine s = .ok engine
                ∧ client.connect engine = .ok conn
                ∧ client.close conn = .error e))) := by
  cases hce : client.create_engine s with
  | error e0 =>
    have hres : create_db_engine client (some s)
        = (.error (.sqlAlchemyError
              ("Failed to create database engine: " ++ e0)),
            [.createEngine s]) := by
      simp [create_db_engine, h, hce]
    rw [hres]
    refine ⟨Or.inl rfl, ?_, ?_, ?_, ?_, ?_⟩
    · intro engine hE
      exact nomatch hE
    · intro e he
      cases he
      rfl
    · intro engine e hE
      exact nomatch hE
    · intro engine conn e hE
      exact nomatch hE
    · intro err herr
      cases herr
      exact ⟨e0, rfl, Or.inl rfl⟩
  | ok engine0 =>
    cases hco : client.connect engine0 with
    | error e0 =>
      have hres : create_db_engine client (some s)
          = (.error (.sqlAlchemyError
                ("Failed to create database engine: " ++ e0)),
              [.createEngine s, .connect]) := by
        simp [create_db_engine, h, hce, hco]
      rw [hres]
      refine ⟨Or.inr (Or.inl rfl), ?_, ?_, ?_, ?_, ?_⟩
      · intro engine hE
        exact nomatch hE
      · intro e he
        exact nomatch he
      · intro engine e hE hC
        cases hE
        rw [hco] at hC
        cases hC
        rfl
      · intro engine conn e hE hC
        cases hE
        rw [hco] at hC
        exact nomatch hC
      · intro err herr
        cases herr
        exact ⟨e0, rfl, Or.inr (Or.inl ⟨engine0, rfl, hco⟩)⟩
    | ok conn0 =>
      cases hcl : client.close conn0 with
      | error e0 =>
        have hres : create_db_engine client (some s)
            = (.error (.sqlAlchemyError
                  ("Failed to create database engine: " ++ e0)),
                [.createEngine s, .connect, .close]) := by
          simp [create_db_engine, h, hce, hco, hcl]
        rw [hres]
        refine ⟨Or.inr (Or.inr rfl), ?_, ?_, ?_, ?_, ?_⟩
        · intro engine hE
          rfl
        · intro e he
          exact nomatch he
        · intro engine e hE hC
          cases hE
          rw [hco] at hC
          exact nomatch hC
        · intro engine conn e hE hC hCl
          cases hE
          rw [hco] at hC
          cases hC
          rw [hcl] at hCl
          cases hCl
          rfl
        · intro err herr
          cases herr
          exact ⟨e0, rfl, Or.inr (Or.inr ⟨engine0, conn0, rfl, hco, hcl⟩)⟩
      | ok u =>
        have hres : create_db_engine client (some s)
            = (.ok engine0, [.createEngine s, .connect, .close]) := by
          simp [create_db_engine, h, hce, hco, hcl]
        rw [hres]
        refine ⟨Or.inr (Or.inr rfl), ?_, ?_, ?_, ?_, ?_⟩
        · intro engine hE
          rfl
        · intro e he
          exact nomatch he
        · intro engine e hE hC
          cases hE
          rw [hco] at hC
          exact nomatch hC
        · intro engine conn e hE hC hCl
          cases hE
          rw [hco] at hC
          cases hC
          rw [hcl] at hCl
          exact nomatch hCl
        · intro err herr
          exact nomatch herr

/-- C3 witness: the theorem instantiated at the spec's §8 scenario — a stub
client that raises on the trial-connection close — and a concrete uri. -/
theorem c3_engine_trial_validation_witness :
    ("postgresql://u:p@db1/sales" : String) ≠ ""
    ∧ (((create_db_engine closeFailStubClient
            (some "postgresql://u:p@db1/sales")).2
          = [ClientEvent.createEngine "postgresql://u:p@db1/sales"]
        ∨ (create_db_engine closeFailStubClient
            (some "postgresql://u:p@db1/sales")).2
          = [ClientEvent.createEngine "postgresql://u:p@db1/sales", .connect]
        ∨ (create_db_engine closeFailStubClient
            (some "postgresql://u:p@db1/sales")).2
          = [ClientEvent.createEngine "postgresql://u:p@db1/sales", .connect,
              .close])
      ∧ (∀ engine, (create_db_engine closeFailStubClient
            (some "postgresql://u:p@db1/sales")).1 = .ok engine →
          (create_db_engine closeFailStubClient
            (some "postgresql://u:p@db1/sales")).2
            = [ClientEvent.createEngine "postgresql://u:p@db1/sales", .connect,
                .close])
      ∧ (∀ e, closeFailStubClient.create_engine "postgresql://u:p@db1/sales"
            = .error e →
          (create_db_engine closeFailStubClient
            (some "postgresql://u:p@db1/sales")).1
            = .error (.sqlAlchemyError
                ("Failed to create database engine: " ++ e)))
      ∧ (∀ engine e, closeFailStubClient.create_engine
              "postgresql://u:p@db1/sales" = .ok engine →
          closeFailStubClient.connect engine = .error e →
          (create_db_engine closeFailStubClient
            (some "postgresql://u:p@db1/sales")).1
            = .error (.sqlAlchemyError
                ("Failed to create database engine: " ++ e)))
      ∧ (∀ engine conn e, closeFailStubClient.create_engine
              "postgresql://u:p@db1/sales" = .ok engine →
          closeFailStubClient.connect engine = .ok conn →
          closeFailStubClient.close conn = .error e →
          (create_db_engine closeFailStubClient
            (some "postgresql://u:p@db1/sales")).1
            = .error (.sqlAlchemyError
                ("Failed to create database engine: " ++ e)))
      ∧ (∀ err, (create_db_engine closeFailStubClient
            (some "postgresql://u:p@db1/sales")).1 = .error err →
          ∃ e, err = .sqlAlchemyError
                ("Failed to create database engine: " ++ e)
            ∧ (closeFailStubClient.create_engine "postgresql://u:p@db1/sales"
                  = .error e
              ∨ (∃ engine, closeFailStubClient.create_engine
                      "postgresql://u:p@db1/sales" = .ok engine
                    ∧ closeFailStubClient.connect engine = .error e)
              ∨ (∃ engine conn, closeFailStubClient.create_engine
                      "postgresql://u:p@db1/sales" = .ok engine
                    ∧ closeFailStubClient.connect engine = .ok conn
                    ∧ closeFailStubClient.close conn = .error e)))) :=
  ⟨by decide,
    c3_engine_trial_validation closeFailStubClient "postgresql://u:p@db1/sales"
      (by decide)⟩

/-- C4: whenever the underlying client raises a `SQLAlchemyError` during
query execution, `execute_query` fails with the wrapping `SQLAlchemyError`
(the spec's `QueryExecutionError`) whose message carries the original cause;
and conversely every failure surfacing from `execute_query` is such a
wrapped error. -/
theorem c4_execute_query_wraps {Params Table : Type}
    (read_sql_query : String → Option Params → Except String Table)
    (query : String) (params : Option Params) :
    (∀ e, read_sql_query query params = .error e →
      (execute_query read_sql_query query params).1
        = .error (.sqlAlchemyError
            ("An error occurred while executing the query: " ++ e)))
    ∧ (∀ err, (execute_query read_sql_query query params).1 = .error err →
        ∃ e, read_sql_query query params = .error e
          ∧ err = .sqlAlchemyError
              ("An error occurred while executing the query: " ++ e)) := by
  constructor
  · intro e he
    simp [execute_query, he]
  · intro err herr
    cases hx : read_sql_query query params with
    | ok t => simp [execute_query, hx] at herr
    | error e =>
      simp [execute_query, hx] at herr
      exact ⟨e, rfl, herr.symm⟩

/-- C4 witness: the theorem instantiated at a stub client that raises a
`SQLAlchemyError` with message `syntax error`. -/
theorem c4_execute_query_wraps_witness :
    (execute_query (fun (_ : String) (_ : Option Unit) =>
        (Except.error "syntax error" : Except String Unit)) "SELECT 1" none).1
      = .error (.sqlAlchemyError
          "An error occurred while executing the query: syntax error") :=
  ((c4_execute_query_wraps (fun _ _ => Except.error "syntax error")
      "SELECT 1" none).1 "syntax error" rfl).trans (by decide)

/-- C7: `create_db_engine` applied to `None` or to the empty string fails
with the `ValueError` of db.py line 34 (the spec's `EmptyConnectionString`)
and its client-call trace is empty: no engine construction and no network
attempt happens, whatever the client would do. -/
theorem c7_empty_connection_string_rejected {Engine Conn : Type}
    (client : StubClient Engine Conn) :
    create_db_engine client none
      = (.error (.valueError "The connection string cannot be empty."), [])
    ∧ create_db_engine client (some "")
      = (.error (.valueError "The connection string cannot be empty."), []) :=
  ⟨rfl, rfl⟩

/-- C7 witness: the theorem instantiated at the all-succeeding stub client
(showing the failure is decided before the client could succeed). -/
theorem c7_empty_connection_string_rejected_witness :
    create_db_engine okStubClient none
      = (.error (.valueError "The connection string cannot be empty."), [])
    ∧ create_db_engine okStubClient (some "")
      = (.error (.valueError "The connection string cannot be empty."), []) :=
  c7_empty_connection_string_rejected okStubClient

/-- C8: `execute_query` makes exactly one call to the underlying
`pd.read_sql_query` and hands it exactly the given query string and the
exact same params value, unmodified, for every params value including
`none`. -/
theorem c8_params_passthrough {Params Table : Type}
    (read_sql_query : String → Option Params → Except String Table)
    (query : String) (params : Option Params) :
    (execute_query read_sql_query query params).2 = [(query, params)] := by
  rcases hx : read_sql_query query params with t | e <;>
    simp [execute_query, hx]

/-- C8 witness: the theorem instantiated at a concrete stub client, query
and params value. -/
theorem c8_params_passthrough_witness :
    (execute_query (fun (_ : String) (_ : Option (List String)) =>
        (Except.ok () : Except String Unit)) "SELECT 1" (some ["x"])).2
      = [("SELECT 1", some ["x"])] :=
  c8_params_passthrough (fun _ _ => Except.ok ()) "SELECT 1" (some ["x"])

/-- C6 witness: the theorem instantiated at an absent driver. -/
theorem c6_missing_driver_witness :
    ((none : Option String) = none ∨ (none : Option String) = some "")
    ∧ create_connection_string "mssql" "db2" "hr" "u" "p" none
      = .error .missingDriver :=
  ⟨Or.inl rfl, c6_missing_driver "db2" "hr" "u" "p" none (Or.inl rfl)⟩

/-- C9: db.py line 84 splices the space-replaced driver into the URI
template before `.format` substitutes the credential fields, so the driver
segment is not independent of those fields: for two mssql credential sets
that differ only in the password and share the driver `{password}`, the
password value is substituted into the driver segment and the driver query
segments of the two URIs differ; and a driver consisting of an unmatched
`\x7b` (resp. `\x7d`) makes the build fail with a formatting error that is
neither the missing-driver error nor the unsupported-kind error. -/
theorem c9_driver_format_injection (host database username p1 p2 : String)
    (hne : p1 ≠ p2) :
    (create_connection_string "mssql" host database username p1
        (some "{password}")
      = .ok ("mssql+pyodbc://" ++ username ++ ":" ++ p1 ++ "@" ++ host
          ++ "/" ++ database ++ "?driver=" ++ p1))
    ∧ (create_connection_string "mssql" host database username p2
        (some "{password}")
      = .ok ("mssql+pyodbc://" ++ username ++ ":" ++ p2 ++ "@" ++ host
          ++ "/" ++ database ++ "?driver=" ++ p2))
    ∧ ("?driver=" ++ p1 : String) ≠ "?driver=" ++ p2
    ∧ create_connection_string "mssql" "h" "d" "u" "p" (some "\x7b")
      = .error .singleLbrace
    ∧ create_connection_string "mssql" "h" "d" "u" "p" (some "\x7d")
      = .error .singleRbrace
    ∧ BuildError.singleLbrace ≠ .missingDriver
    ∧ (∀ t, BuildError.singleLbrace ≠ .unsupportedDbType t)
    ∧ BuildError.singleRbrace ≠ .missingDriver
    ∧ (∀ t, BuildError.singleRbrace ≠ .unsupportedDbType t) := by
  refine ⟨mssql_driver_injection_eval host database username p1,
    mssql_driver_injection_eval host database username p2, ?_, by decide,
    by decide, by decide, ?_, by decide, ?_⟩
  · intro he
    apply hne
    apply String.ext
    have h2 := congrArg String.data he
    rw [String.data_append, String.data_append] at h2
    exact List.append_cancel_left h2
  · intro t hc
    exact nomatch hc
  · intro t hc
    exact nomatch hc

/-- C9 witness: the theorem instantiated at two concrete passwords. -/
theorem c9_driver_format_injection_witness :
    ("p1" : String) ≠ "p2"
    ∧ ((create_connection_string "mssql" "db2" "hr" "u" "p1"
          (some "{password}")
        = .ok ("mssql+pyodbc://" ++ "u" ++ ":" ++ "p1" ++ "@" ++ "db2"
            ++ "/" ++ "hr" ++ "?driver=" ++ "p1"))
      ∧ (create_connection_string "mssql" "db2" "hr" "u" "p2"
          (some "{password}")
        = .ok ("mssql+pyodbc://" ++ "u" ++ ":" ++ "p2" ++ "@" ++ "db2"
            ++ "/" ++ "hr" ++ "?driver=" ++ "p2"))
      ∧ ("?driver=" ++ "p1" : String) ≠ "?driver=" ++ "p2"
      ∧ create_connection_string "mssql" "h" "d" "u" "p" (some "\x7b")
        = .error .singleLbrace
      ∧ create_connection_string "mssql" "h" "d" "u" "p" (some "\x7d")
        = .error .singleRbrace
      ∧ BuildError.singleLbrace ≠ .missingDriver
      ∧ (∀ t, BuildError.singleLbrace ≠ .unsupportedDbType t)
      ∧ BuildError.singleRbrace ≠ .missingDriver
      ∧ (∀ t, BuildError.singleRbrace ≠ .unsupportedDbType t)) :=
  ⟨by decide, c9_driver_format_injection "db2" "hr" "u" "p1" "p2" (by decide)⟩

/-- C10: the kind comparison of db.py lines 78 and 80 is exact and
case-sensitive — the case variants `MSSQL` and `PostgreSQL` fail with the
unsupported-kind error for every combination of the other fields, driver
included — while `AutoConnector.__init__` (core.py line 99) compares the
kind case-insensitively, so for kind `MSSQL` it does read a driver value and
the subsequent build still fails with the unsupported-kind error. -/
theorem c10_kind_case_sensitivity (host database username password : String)
    (driver : Option String) :
    create_connection_string "MSSQL" host database username password driver
      = .error (.unsupportedDbType "MSSQL")
    ∧ create_connection_string "PostgreSQL" host database username password
        driver
      = .error (.unsupportedDbType "PostgreSQL")
    ∧ autoConnectorReadsDriver "MSSQL" = true
    ∧ autoConnectorReadsDriver "PostgreSQL" = false := by
  refine ⟨?_, ?_, by decide, by decide⟩ <;>
    · unfold create_connection_string
      rw [if_neg (by decide), if_neg (by decide)]

/-- C10 witness: the theorem instantiated at concrete fields with a driver
present. -/
theorem c10_kind_case_sensitivity_witness :
    create_connection_string "MSSQL" "db2" "hr" "u" "p" (some "ODBC")
      = .error (.unsupportedDbType "MSSQL")
    ∧ create_connection_string "PostgreSQL" "db2" "hr" "u" "p" (some "ODBC")
      = .error (.unsupportedDbType "PostgreSQL")
    ∧ autoConnectorReadsDriver "MSSQL" = true
    ∧ autoConnectorReadsDriver "PostgreSQL" = false :=
  c10_kind_case_sensitivity "db2" "hr" "u" "p" (some "ODBC")
